import Mathlib

/-!
Shallow embedding of the STM32 input-capture driver
(`src/drivers/ic/ic.c`, `src/include/drivers/ic.h`).

Hardware registers accessed through the LL_TIM_* accessors are modelled as
explicit fields of a `TimHw` state record; the per-device capture session
(`struct ic_stm32_capture_data`) becomes `CaptureData`.  Callback invocations
performed by interrupt code are collected into a list of `CbInvocation`
records, in the order the C code performs them.  Fallible hardware calls
(`LL_TIM_IC_Init`) are modelled by a boolean parameter saying whether the
hardware accepted the programming, and errno-style return codes are `Int`
values as in the C.
-/

namespace IcStm32

/-- Errno values (Zephyr / newlib numbering); the C code returns their
negations. `IOERR` stands for the C constant for an input/output error
(numeric value 5). -/
def ENOTSUP : Int := 134

def EBUSY : Int := 16

def EINVAL : Int := 22

def IOERR : Int := 5

def ERANGE : Int := 34

/-- Flag bits from `include/drivers/ic.h` and Zephyr's pwm devicetree
bindings: bit 0 is polarity, bits 1-2 the capture type, bit 3 the mode. -/
def PWM_POLARITY_INVERTED : Nat := 1

def PWM_POLARITY_MASK : Nat := 1

def IC_CAPTURE_TYPE_PERIOD : Nat := 2

def IC_CAPTURE_TYPE_PULSE : Nat := 4

def IC_CAPTURE_MODE_CONTINUOUS : Nat := 8

/-- `LL_TIM_UPDATESOURCE_REGULAR` / `LL_TIM_UPDATESOURCE_COUNTER`. -/
inductive UpdateSrc
  | regular
  | counterSrc
  deriving DecidableEq, Repr

/-- `LL_TIM_ACTIVEINPUT_DIRECTTI` / `LL_TIM_ACTIVEINPUT_INDIRECTTI`. -/
inductive ActiveInput
  | directTI
  | indirectTI
  deriving DecidableEq, Repr

/-- `LL_TIM_IC_POLARITY_RISING` / `LL_TIM_IC_POLARITY_FALLING`. -/
inductive EdgeSel
  | rising
  | falling
  deriving DecidableEq, Repr

/-- The `LL_TIM_IC_InitTypeDef` fields the driver sets in
`init_capture_channel`; prescaler and filter are the raw register values
(`TIM_ICPSC_DIV1 = 0`, `LL_TIM_IC_FILTER_FDIV1 = 0`). -/
structure IcChannelInit where
  activeInput : ActiveInput
  polarity : EdgeSel
  icPrescaler : Nat
  icFilter : Nat
  deriving DecidableEq, Repr

/-- `LL_TIM_CHANNEL_CH1` / `LL_TIM_CHANNEL_CH2` as passed to
`init_capture_channel`. -/
inductive LLChannel
  | ch1
  | ch2
  deriving DecidableEq, Repr

/-- The timer-peripheral registers the driver reads and writes, one field per
LL accessor used in `ic.c`:
interrupt enables (DIER.CC1IE, DIER.UIE), status flags (SR.CC1IF, SR.UIF),
the channel-enable bit (CCER.CC1E), the update source, the counter, the
auto-reload register and its preload bit, the update-event-enable bit, the
capture register CCR1 read by `LL_TIM_IC_GetCaptureCH1`, and the
channel input configurations written by `LL_TIM_IC_Init`. -/
structure TimHw where
  cc1_it_enabled : Bool
  update_it_enabled : Bool
  cc1_flag : Bool
  update_flag : Bool
  cc1_channel_enabled : Bool
  update_source : UpdateSrc
  counter : Nat
  auto_reload : Nat
  arr_preload : Bool
  update_event_enabled : Bool
  ccr1 : Nat
  ch1_init : Option IcChannelInit
  ch2_init : Option IcChannelInit
  deriving DecidableEq, Repr

/-- `struct ic_stm32_capture_data`.  Callback identity is modelled as an
optional tag (`none` is C's `NULL`); `user_data` as an opaque number. -/
structure CaptureData where
  callback : Option Nat
  user_data : Nat
  period : Nat
  overflows : Nat
  skip_irq : Nat
  continuous : Bool
  deriving DecidableEq, Repr

/-- One invocation of the registered `ic_capture_callback_handler_t`,
recording the arguments the ISR passes. -/
structure CbInvocation where
  channel : Nat
  period_cycles : Nat
  pulse_cycles : Nat
  status : Int
  user_data : Nat
  deriving DecidableEq, Repr

/-- `SKIPPED_IC_CAPTURES` — the configured discard count (ic.c line 44). -/
def SKIPPED_IC_CAPTURES : Nat := 0

/-- The auto-reload ceiling `ic_stm32_configure_capture` programs:
`0xffff` unless the instance is a 32-bit counter (ic.c lines 252-256). -/
def timerMaxAutoReload (is32bit : Bool) : Nat :=
  if is32bit then 0xffffffff else 0xffff

/-- `init_capture_channel` (ic.c lines 165-204).  Builds the
direct/indirect-input and polarity configuration from the requested logical
channel, the polarity flag and the physical LL channel, then programs it
with `LL_TIM_IC_Init`; `icInitOk = false` models the hardware rejecting the
configuration (the C returns `-EIO` then). -/
def init_capture_channel (icInitOk : Bool) (hw : TimHw) (channel : Nat)
    (flags : Nat) (ll_channel : LLChannel) : Option TimHw :=
  let is_inverted := flags &&& PWM_POLARITY_MASK = PWM_POLARITY_INVERTED
  let ic : IcChannelInit :=
    match ll_channel with
    | .ch1 =>
      if channel = 1 then
        ⟨.directTI, if is_inverted then .falling else .rising, 0, 0⟩
      else
        ⟨.indirectTI, if is_inverted then .rising else .falling, 0, 0⟩
    | .ch2 =>
      if channel = 1 then
        ⟨.indirectTI, if is_inverted then .rising else .falling, 0, 0⟩
      else
        ⟨.directTI, if is_inverted then .falling else .rising, 0, 0⟩
  if icInitOk then
    match ll_channel with
    | .ch1 => some { hw with ch1_init := some ic }
    | .ch2 => some { hw with ch2_init := some ic }
  else none

/-- `ic_stm32_configure_capture` (ic.c lines 206-260).  Returns the C return
code together with the hardware and session state after the call.  Note the
order of operations in the source: the session fields are stored *before*
the fallible `init_capture_channel` call. -/
def ic_stm32_configure_capture (icInitOk is32bit : Bool) (hw : TimHw)
    (cpt : CaptureData) (channel : Nat) (flags : Nat) (cb : Option Nat)
    (user_data : Nat) : Int × TimHw × CaptureData :=
  if channel ≠ 1 then (-ENOTSUP, hw, cpt)
  else if hw.cc1_it_enabled then (-EBUSY, hw, cpt)
  else if flags &&& IC_CAPTURE_TYPE_PERIOD = 0 then (-EINVAL, hw, cpt)
  else
    let cpt1 : CaptureData :=
      { cpt with
        callback := cb
        user_data := user_data
        continuous := decide (flags &&& IC_CAPTURE_MODE_CONTINUOUS ≠ 0) }
    match init_capture_channel icInitOk hw channel flags .ch1 with
    | none => (-IOERR, hw, cpt1)
    | some hw1 =>
      let hw2 : TimHw :=
        { hw1 with
          arr_preload := true
          auto_reload := timerMaxAutoReload is32bit
          update_event_enabled := true }
      (0, hw2, cpt1)

/-- `ic_stm32_enable_capture` (ic.c lines 262-295).  On success resets
`skip_irq`/`overflows`, clears stale flags, enables both interrupts and the
channel, and generates one synthetic update event (`LL_TIM_GenerateEvent_UPDATE`
reloads the counter from the preload registers and raises the update flag). -/
def ic_stm32_enable_capture (hw : TimHw) (cpt : CaptureData)
    (channel : Nat) : Int × TimHw × CaptureData :=
  if channel ≠ 1 ∧ channel ≠ 2 then (-EINVAL, hw, cpt)
  else if hw.cc1_it_enabled then (-EBUSY, hw, cpt)
  else if cpt.callback = none then (-EINVAL, hw, cpt)
  else
    let cpt1 : CaptureData :=
      { cpt with skip_irq := SKIPPED_IC_CAPTURES, overflows := 0 }
    let hw1 : TimHw :=
      { hw with
        cc1_flag := false
        update_flag := false
        cc1_it_enabled := true
        update_it_enabled := true
        cc1_channel_enabled := true }
    let hw2 : TimHw := { hw1 with counter := 0, update_flag := true }
    (0, hw2, cpt1)

/-- `ic_stm32_disable_capture` (ic.c lines 297-312).  Validates only the
channel argument; always programs the same four register changes. -/
def ic_stm32_disable_capture (hw : TimHw) (channel : Nat) : Int × TimHw :=
  if channel ≠ 1 ∧ channel ≠ 2 then (-EINVAL, hw)
  else
    (0,
      { hw with
        update_source := .regular
        cc1_it_enabled := false
        update_it_enabled := false
        cc1_channel_enabled := false })

/-- Result of one entry into the interrupt handler: hardware state, session
state, and the callback invocations performed, in order. -/
structure IsrResult where
  hw : TimHw
  cpt : CaptureData
  calls : List CbInvocation
  deriving DecidableEq, Repr

/-- `ic_stm32_isr` (ic.c lines 323-376).  `in_ch` is inferred from the CC1
interrupt-enable bit; `status` starts at 0, is set to `-ERANGE` by the
overflow branch and is *not* reset before the capture branch's callback.
`get_pwm_capture` reads CCR1 into the session's `period`.  In single-shot
mode the capture branch calls `ic_stm32_disable_capture`; in continuous mode
it zeroes `overflows`.  Callbacks run only when `callback != NULL`. -/
def ic_stm32_isr (hw : TimHw) (cpt : CaptureData) : IsrResult :=
  let in_ch : Nat := if hw.cc1_it_enabled then 1 else 2
  if cpt.skip_irq = 0 then
    let hw1 : TimHw :=
      if hw.update_flag then { hw with update_flag := false } else hw
    let cpt1 : CaptureData :=
      if hw.update_flag then { cpt with overflows := cpt.overflows + 1 }
      else cpt
    let status1 : Int := if hw.update_flag then -ERANGE else 0
    let calls1 : List CbInvocation :=
      if hw.update_flag ∧ cpt.callback ≠ none then
        [⟨in_ch, 0xffff, 0, -ERANGE, cpt.user_data⟩]
      else []
    if hw.cc1_flag then
      let hw2 : TimHw := { hw1 with cc1_flag := false }
      let cpt2 : CaptureData := { cpt1 with period := hw.ccr1 }
      let hw3 : TimHw :=
        if cpt.continuous then hw2
        else (ic_stm32_disable_capture hw2 in_ch).2
      let cpt3 : CaptureData :=
        if cpt.continuous then { cpt2 with overflows := 0 } else cpt2
      let hw4 : TimHw := { hw3 with counter := 0 }
      let calls2 : List CbInvocation :=
        if cpt.callback ≠ none then
          [⟨in_ch, hw.ccr1, 0, status1, cpt.user_data⟩]
        else []
      ⟨hw4, cpt3, calls1 ++ calls2⟩
    else ⟨hw1, cpt1, calls1⟩
  else
    let hw1 : TimHw :=
      if hw.update_flag then { hw with update_flag := false } else hw
    if hw.cc1_flag then
      ⟨{ hw1 with cc1_flag := false },
        { cpt with skip_irq := cpt.skip_irq - 1 }, []⟩
    else ⟨hw1, cpt, []⟩

/-- `USEC_PER_SEC`. -/
def USEC_PER_SEC : Nat := 1000000

/-- The largest value a `uint64_t` holds. -/
def U64_MAX : Nat := 2 ^ 64 - 1

/-- `u64_mul_overflow(a, b, &r)`: true exactly when the mathematical product
does not fit in 64 bits (in which case the C discards the result). -/
def u64_mul_overflow (a b : Nat) : Bool := decide (a * b > U64_MAX)

/-- `ic_cycles_to_usec` (ic.h lines 477-496), with the cycles-per-second
rate taken as a resolved input (`ic_stm32_get_cycles_per_sec` always
succeeds for this driver): multiply by `USEC_PER_SEC` with a 64-bit
overflow check, then divide truncating. -/
def ic_cycles_to_usec (cycles : Nat) (cycles_per_sec : Nat) :
    Except Int Nat :=
  if u64_mul_overflow cycles USEC_PER_SEC then .error (-ERANGE)
  else .ok (cycles * USEC_PER_SEC / cycles_per_sec)

/-- The TIMPRE branch of `get_tim_clk` (ic.c lines 113-147): with the
timer-prescaler control bit in ×2 mode, APB prescalers up to 2 resolve the
timer clock to HCLK and larger ones to twice the bus clock; in ×4 mode the
threshold is 4 and the multiplier 4. -/
inductive TimPrescalerMode
  | twice
  | quadruple
  deriving DecidableEq, Repr

/-- `get_tim_clk`, TIMPRE-capable families (ic.c lines 127-147), as a
function of the mode bit, the APB prescaler factor, the bus clock returned
by `clock_control_get_rate` and the HCLK frequency returned by
`LL_RCC_GetSystemClocksFreq`. -/
def get_tim_clk_timpre (mode : TimPrescalerMode) (apb_psc bus_clk hclk : Nat) :
    Nat :=
  match mode with
  | .twice => if apb_psc ≤ 2 then hclk else bus_clk * 2
  | .quadruple => if apb_psc ≤ 4 then hclk else bus_clk * 4

/-- Spec-side helper: the claim's "clock-scaling threshold" per mode. -/
def timpreThreshold : TimPrescalerMode → Nat
  | .twice => 2
  | .quadruple => 4

/-- Spec-side helper: the claim's multiplier per mode. -/
def timpreMultiplier : TimPrescalerMode → Nat
  | .twice => 2
  | .quadruple => 4

/-- Helper: inside the ISR the channel argument passed to
`ic_stm32_disable_capture` is always 1 or 2, so the call never hits the
argument-validation branch and always performs the four register changes. -/
theorem disable_capture_in_ch (hw : TimHw) (b : Bool) :
    ic_stm32_disable_capture hw (if b then 1 else 2) =
      (0,
        { hw with
          update_source := .regular
          cc1_it_enabled := false
          update_it_enabled := false
          cc1_channel_enabled := false }) := by
  cases b <;> simp [ic_stm32_disable_capture]

/-- C1 counterexample: in continuous mode with `skip_irq = 0`, both flags
pending, a configured callback, and raw captured value 2000 on a 16-bit
timer, the handler performs two invocations, but the second one carries
status `-ERANGE` (the `status` local set by the overflow branch is never
reset), not success as the claim states. -/
theorem c1_counterexample :
    (ic_stm32_isr
        ⟨true, true, true, true, true, .regular, 5000, 0xffff, true, true,
          2000, none, none⟩
        ⟨some 1, 7, 0, 0, 0, true⟩).calls =
      [⟨1, 0xffff, 0, -ERANGE, 7⟩, ⟨1, 2000, 0, -ERANGE, 7⟩] ∧
    (-ERANGE : Int) ≠ 0 :=
  ⟨by decide, by decide⟩

/-- C1 (amended): in continuous mode with `skip_irq = 0` where both the
overflow and the capture-compare conditions are pending and a callback is
configured, the handler invokes the callback twice in order: the first
invocation has status = range-error and `period_ticks = 0xFFFF`, and the
second invocation has `period_ticks` equal to the raw captured counter
value but status = range-error as well, inherited from the overflow branch
handled earlier in the same entry. -/
theorem isr_dual_event_callbacks (hw : TimHw) (cpt : CaptureData) (u : Nat)
    (hskip : cpt.skip_irq = 0) (hcont : cpt.continuous = true)
    (hcb : cpt.callback = some u) (hupd : hw.update_flag = true)
    (hcc : hw.cc1_flag = true) :
    (ic_stm32_isr hw cpt).calls =
      [⟨if hw.cc1_it_enabled then 1 else 2, 0xffff, 0, -ERANGE,
          cpt.user_data⟩,
        ⟨if hw.cc1_it_enabled then 1 else 2, hw.ccr1, 0, -ERANGE,
          cpt.user_data⟩] := by
  simp [ic_stm32_isr, hskip, hcont, hcb, hupd, hcc]

/-- C1 witness: the amended theorem evaluated on the spec's interrupt
scenario (overflow then capture with raw value 2000). -/
theorem isr_dual_event_callbacks_witness :
    (ic_stm32_isr
        ⟨true, true, true, true, true, .regular, 5000, 0xffff, true, true,
          2000, none, none⟩
        ⟨some 1, 7, 0, 0, 0, true⟩).calls =
      [⟨1, 0xffff, 0, -ERANGE, 7⟩, ⟨1, 2000, 0, -ERANGE, 7⟩] := by
  have h := isr_dual_event_callbacks
    ⟨true, true, true, true, true, .regular, 5000, 0xffff, true, true,
      2000, none, none⟩
    ⟨some 1, 7, 0, 0, 0, true⟩ 1 rfl rfl rfl rfl rfl
  simpa using h

/-- C2 counterexample: on a timer whose auto-reload register was set to the
32-bit ceiling, an overflow-only interrupt entry with `skip_irq = 0` still
reports `period_ticks = 0xFFFF` (the value is hard-coded in the ISR), not
the 32-bit maximum `0xFFFFFFFF` the claim requires. -/
theorem c2_counterexample :
    (ic_stm32_isr
        ⟨true, true, false, true, true, .regular, 0, timerMaxAutoReload true,
          true, true, 0, none, none⟩
        ⟨some 1, 0, 0, 0, 0, true⟩).calls =
      [⟨1, 0xffff, 0, -ERANGE, 0⟩] ∧
    (0xffff : Nat) ≠ timerMaxAutoReload true :=
  ⟨by decide, by decide⟩

/-- C2 (amended): for every interrupt entry with `skip_irq = 0` where the
overflow condition is pending and a callback is configured, the handler's
first callback invocation has `period_ticks = 0xFFFF` regardless of the
timer's register width (this equals the maximum representable value only
for 16-bit timers). -/
theorem isr_overflow_reports_ffff (hw : TimHw) (cpt : CaptureData) (u : Nat)
    (hskip : cpt.skip_irq = 0) (hupd : hw.update_flag = true)
    (hcb : cpt.callback = some u) :
    (ic_stm32_isr hw cpt).calls.head? =
      some ⟨if hw.cc1_it_enabled then 1 else 2, 0xffff, 0, -ERANGE,
        cpt.user_data⟩ := by
  cases hcc : hw.cc1_flag <;>
    simp [ic_stm32_isr, hskip, hupd, hcb, hcc]

/-- C2 witness: the amended theorem evaluated on an overflow-only entry. -/
theorem isr_overflow_reports_ffff_witness :
    (ic_stm32_isr
        ⟨true, true, false, true, true, .regular, 0, 0xffffffff, true, true,
          0, none, none⟩
        ⟨some 1, 0, 0, 0, 0, true⟩).calls.head? =
      some ⟨1, 0xffff, 0, -ERANGE, 0⟩ := by
  have h := isr_overflow_reports_ffff
    ⟨true, true, false, true, true, .regular, 0, 0xffffffff, true, true,
      0, none, none⟩
    ⟨some 1, 0, 0, 0, 0, true⟩ 1 rfl rfl rfl
  simpa using h

/-- C3 counterexample: with `skip_irq = 1` and only the overflow condition
pending, the handler leaves `skip_irq` at 1 — it is not decremented, contrary
to the claim that any pending interrupt type decrements it by exactly one. -/
theorem c3_counterexample :
    (ic_stm32_isr
        ⟨true, true, false, true, true, .regular, 0, 0xffff, true, true, 9,
          none, none⟩
        ⟨some 1, 0, 0, 4, 1, true⟩).cpt.skip_irq = 1 ∧
    (1 : Nat) ≠ 1 - 1 :=
  ⟨by decide, by decide⟩

/-- C3 (amended): for every interrupt entry with `skip_irq > 0`, the handler
clears whichever pending flags are set, invokes no callback, and modifies no
session field other than `skip_irq`; `skip_irq` is decremented by exactly one
when the capture-compare condition is pending, and left unchanged when only
the overflow condition is pending. -/
theorem isr_skip_branch (hw : TimHw) (cpt : CaptureData)
    (hskip : cpt.skip_irq ≠ 0) :
    (ic_stm32_isr hw cpt).calls = [] ∧
    (ic_stm32_isr hw cpt).hw =
      { hw with update_flag := false, cc1_flag := false } ∧
    (ic_stm32_isr hw cpt).cpt =
      { cpt with skip_irq :=
          if hw.cc1_flag then cpt.skip_irq - 1 else cpt.skip_irq } := by
  cases hw with
  | mk cc1ie uie cc1f uf cce us cnt arr pre uee ccr c1i c2i =>
  cases cpt with
  | mk cb ud per ovf skip cont =>
  cases cc1f <;> cases uf <;> simp_all [ic_stm32_isr]

/-- C3 witness: the amended theorem evaluated on an overflow-only entry with
`skip_irq = 1`: no callback, flags cleared, `skip_irq` unchanged. -/
theorem isr_skip_branch_witness :
    (1 : Nat) ≠ 0 ∧
    (ic_stm32_isr
        ⟨true, true, false, true, true, .regular, 3, 0xffff, true, true, 9,
          none, none⟩
        ⟨some 2, 0, 0, 4, 1, true⟩).calls = [] :=
  ⟨by decide,
    (isr_skip_branch
      ⟨true, true, false, true, true, .regular, 3, 0xffff, true, true, 9,
        none, none⟩
      ⟨some 2, 0, 0, 4, 1, true⟩ (by decide)).1⟩

/-- C4 counterexample: in single-shot mode a valid (non-skipped)
capture-compare event leaves `overflow_count` untouched (here at 5): the
reset to zero happens only in the continuous branch, contrary to the claim
that it happens in single-shot mode as well. -/
theorem c4_counterexample :
    (ic_stm32_isr
        ⟨true, true, true, false, true, .regular, 100, 0xffff, true, true,
          2000, none, none⟩
        ⟨some 1, 0, 0, 5, 0, false⟩).cpt.overflows = 5 ∧
    (5 : Nat) ≠ 0 :=
  ⟨by decide, by decide⟩

/-- C4 (amended): for every interrupt entry with `skip_irq = 0`,
`overflow_count` ends at zero exactly when a capture-compare event is
processed in continuous mode; otherwise it is incremented by one when an
overflow event was pending and unchanged when not — in particular a
single-shot capture does not reset it. -/
theorem isr_overflow_count_update (hw : TimHw) (cpt : CaptureData)
    (hskip : cpt.skip_irq = 0) :
    (ic_stm32_isr hw cpt).cpt.overflows =
      (if hw.cc1_flag = true ∧ cpt.continuous = true then 0
       else cpt.overflows + if hw.update_flag then 1 else 0) := by
  cases hcc : hw.cc1_flag <;> cases hupd : hw.update_flag <;>
    cases hcont : cpt.continuous <;>
      simp [ic_stm32_isr, hskip, hcc, hupd, hcont, disable_capture_in_ch]

/-- C4 witness: the amended theorem evaluated on a continuous-mode capture
following three overflows: the counter is reset to zero. -/
theorem isr_overflow_count_update_witness :
    (0 : Nat) = 0 ∧
    (ic_stm32_isr
        ⟨true, true, true, false, true, .regular, 100, 0xffff, true, true,
          2000, none, none⟩
        ⟨some 1, 0, 0, 3, 0, true⟩).cpt.overflows = 0 := by
  refine ⟨rfl, ?_⟩
  have h := isr_overflow_count_update
    ⟨true, true, true, false, true, .regular, 100, 0xffff, true, true,
      2000, none, none⟩
    ⟨some 1, 0, 0, 3, 0, true⟩ rfl
  simpa using h

/-- C5 counterexample: configuring with a new callback while the hardware
rejects the channel programming returns the I/O error, yet the session's
callback (and `user_data`/`continuous`) have already been overwritten — the
session is not "unchanged" and not left unconfigured. -/
theorem c5_counterexample :
    ic_stm32_configure_capture false false
        ⟨false, false, false, false, false, .regular, 0, 0, false, false, 0,
          none, none⟩
        ⟨some 7, 0, 0, 0, 0, false⟩ 1 IC_CAPTURE_TYPE_PERIOD (some 9) 3 =
      (-IOERR,
        ⟨false, false, false, false, false, .regular, 0, 0, false, false, 0,
          none, none⟩,
        ⟨some 9, 3, 0, 0, 0, false⟩) ∧
    (some 9 : Option Nat) ≠ some 7 :=
  ⟨by decide, by decide⟩

/-- C5 (amended): `configure_capture`'s argument-validation failures
(unsupported channel, busy, missing period flag) leave both the hardware and
the session unchanged; but when the hardware channel programming itself
fails, the call returns the I/O error with the session's callback,
`user_data` and continuous flag already overwritten by the new arguments. -/
theorem configure_capture_failure_modes (icInitOk is32bit : Bool)
    (hw : TimHw) (cpt : CaptureData) (channel flags : Nat) (cb : Option Nat)
    (ud : Nat) :
    (channel ≠ 1 →
      ic_stm32_configure_capture icInitOk is32bit hw cpt channel flags cb ud
        = (-ENOTSUP, hw, cpt)) ∧
    (channel = 1 → hw.cc1_it_enabled = true →
      ic_stm32_configure_capture icInitOk is32bit hw cpt channel flags cb ud
        = (-EBUSY, hw, cpt)) ∧
    (channel = 1 → hw.cc1_it_enabled = false →
      flags &&& IC_CAPTURE_TYPE_PERIOD = 0 →
      ic_stm32_configure_capture icInitOk is32bit hw cpt channel flags cb ud
        = (-EINVAL, hw, cpt)) ∧
    (channel = 1 → hw.cc1_it_enabled = false →
      flags &&& IC_CAPTURE_TYPE_PERIOD ≠ 0 → icInitOk = false →
      ic_stm32_configure_capture icInitOk is32bit hw cpt channel flags cb ud
        = (-IOERR, hw,
            { cpt with
              callback := cb
              user_data := ud
              continuous :=
                decide (flags &&& IC_CAPTURE_MODE_CONTINUOUS ≠ 0) })) := by
  refine ⟨fun h => ?_, fun h hb => ?_, fun h hb hp => ?_,
    fun h hb hp hio => ?_⟩
  · simp [ic_stm32_configure_capture, h]
  · subst h; simp [ic_stm32_configure_capture, hb]
  · subst h; simp [ic_stm32_configure_capture, hb, hp]
  · subst h; subst hio
    simp [ic_stm32_configure_capture, hb, hp, init_capture_channel]

/-- C5 witness: the amended theorem's I/O-fault case evaluated on a quiescent
session with the period flag set and the hardware rejecting the programming. -/
theorem configure_capture_failure_modes_witness :
    (1 : Nat) = 1 ∧ (2 : Nat) &&& IC_CAPTURE_TYPE_PERIOD ≠ 0 ∧
    ic_stm32_configure_capture false false
        ⟨false, false, false, false, false, .regular, 0, 0, false, false, 0,
          none, none⟩
        ⟨some 7, 1, 0, 0, 0, true⟩ 1 2 none 5 =
      (-IOERR,
        ⟨false, false, false, false, false, .regular, 0, 0, false, false, 0,
          none, none⟩,
        ⟨none, 5, 0, 0, 0, false⟩) := by
  refine ⟨rfl, by decide, ?_⟩
  have h := (configure_capture_failure_modes false false
    ⟨false, false, false, false, false, .regular, 0, 0, false, false, 0,
      none, none⟩
    ⟨some 7, 1, 0, 0, 0, true⟩ 1 2 none 5).2.2.2 rfl rfl (by decide) rfl
  simpa using h

/-- C6 counterexample: in ×2 mode with the APB prescaler exactly at the
threshold value 2, the code resolves the timer clock to HCLK (here 999),
not to bus clock × 2 = 20 as the claim's "at or above the threshold" tier
requires. -/
theorem c6_counterexample :
    get_tim_clk_timpre .twice 2 10 999 = 999 ∧
    get_tim_clk_timpre .twice 2 10 999 ≠ 10 * 2 :=
  ⟨by decide, by decide⟩

/-- C6 (amended): on TIMPRE-capable families the resolved timer clock
follows a two-tier rule with an *inclusive* lower tier: for every APB
prescaler value at or below the threshold (2 in ×2 mode, 4 in ×4 mode) the
timer clock equals HCLK, and for every value strictly above the threshold it
equals the bus clock multiplied by the mode's multiplier (2 or 4). -/
theorem get_tim_clk_timpre_two_tier (mode : TimPrescalerMode)
    (apb_psc bus_clk hclk : Nat) :
    (apb_psc ≤ timpreThreshold mode →
      get_tim_clk_timpre mode apb_psc bus_clk hclk = hclk) ∧
    (timpreThreshold mode < apb_psc →
      get_tim_clk_timpre mode apb_psc bus_clk hclk =
        bus_clk * timpreMultiplier mode) := by
  cases mode <;> constructor
  · intro h
    simp only [timpreThreshold] at h
    simp [get_tim_clk_timpre, h]
  · intro h
    simp only [timpreThreshold] at h
    simp [get_tim_clk_timpre, timpreMultiplier, Nat.not_le.mpr h]
  · intro h
    simp only [timpreThreshold] at h
    simp [get_tim_clk_timpre, h]
  · intro h
    simp only [timpreThreshold] at h
    simp [get_tim_clk_timpre, timpreMultiplier, Nat.not_le.mpr h]

/-- C6 witness: the amended theorem evaluated at the threshold (×2 mode,
prescaler 2 resolves to HCLK) and above it (prescaler 4 resolves to twice
the bus clock). -/
theorem get_tim_clk_timpre_two_tier_witness :
    (2 : Nat) ≤ timpreThreshold .twice ∧
    get_tim_clk_timpre .twice 2 10 999 = 999 ∧
    timpreThreshold .twice < 4 ∧
    get_tim_clk_timpre .twice 4 10 999 = 10 * timpreMultiplier .twice :=
  ⟨by decide,
    (get_tim_clk_timpre_two_tier .twice 2 10 999).1 (by decide),
    by decide,
    (get_tim_clk_timpre_two_tier .twice 4 10 999).2 (by decide)⟩

/-- C7: for every fixed rate `freq > 0`, `ic_cycles_to_usec` is monotonically
non-decreasing in the cycle count, fails with the range error exactly when
`cycles * 1_000_000` exceeds `2^64 - 1`, otherwise returns the truncating
quotient `cycles * 1_000_000 / freq`; in particular 2000 cycles at 16 MHz
convert to 125 µs. -/
theorem ic_cycles_to_usec_spec (freq : Nat) (hf : 0 < freq) :
    (∀ t1 t2 u1 u2 : Nat, t1 ≤ t2 →
      ic_cycles_to_usec t1 freq = .ok u1 →
      ic_cycles_to_usec t2 freq = .ok u2 → u1 ≤ u2) ∧
    (∀ t : Nat,
      ic_cycles_to_usec t freq = .error (-ERANGE) ↔
        t * 1000000 > 2 ^ 64 - 1) ∧
    (∀ t : Nat, t * 1000000 ≤ 2 ^ 64 - 1 →
      ic_cycles_to_usec t freq = .ok (t * 1000000 / freq)) ∧
    ic_cycles_to_usec 2000 16000000 = .ok 125 := by
  refine ⟨?_, ?_, ?_, by rfl⟩
  · intro t1 t2 u1 u2 hle h1 h2
    simp only [ic_cycles_to_usec, u64_mul_overflow, USEC_PER_SEC, U64_MAX]
      at h1 h2
    split at h1
    · exact absurd h1 (by simp)
    · split at h2
      · exact absurd h2 (by simp)
      · simp only [Except.ok.injEq] at h1 h2
        subst h1; subst h2
        exact Nat.div_le_div_right (Nat.mul_le_mul_right _ hle)
  · intro t
    simp only [ic_cycles_to_usec, u64_mul_overflow, USEC_PER_SEC, U64_MAX]
    split <;> rename_i h <;> simp_all
  · intro t ht
    have h : ¬ t * 1000000 > 2 ^ 64 - 1 := Nat.not_lt.mpr ht
    simp only [ic_cycles_to_usec, u64_mul_overflow, USEC_PER_SEC, U64_MAX]
    simp [h]
    exact le_trans ht (by norm_num)

/-- C7 witness: the theorem at the spec's scenario rate 16 MHz; 2000 ticks
convert to 125 µs. -/
theorem ic_cycles_to_usec_spec_witness :
    (0 : Nat) < 16000000 ∧ ic_cycles_to_usec 2000 16000000 = .ok 125 :=
  ⟨by decide, (ic_cycles_to_usec_spec 16000000 (by decide)).2.2.2⟩

/-- C8: whenever `enable_capture` succeeds (channel 1 or 2, capture not
already enabled, callback configured), the call returns 0 and afterwards
`overflow_count = 0` and `skip_irq` equals the configured discard count
`SKIPPED_IC_CAPTURES`, for every prior value of those fields. -/
theorem enable_capture_resets_counts (hw : TimHw) (cpt : CaptureData)
    (channel : Nat) (hch : channel = 1 ∨ channel = 2)
    (hbusy : hw.cc1_it_enabled = false) (hcb : cpt.callback ≠ none) :
    (ic_stm32_enable_capture hw cpt channel).1 = 0 ∧
    (ic_stm32_enable_capture hw cpt channel).2.2.overflows = 0 ∧
    (ic_stm32_enable_capture hw cpt channel).2.2.skip_irq =
      SKIPPED_IC_CAPTURES := by
  rcases hch with h | h <;> subst h <;>
    simp [ic_stm32_enable_capture, hbusy, hcb]

/-- C8 witness: enabling channel 1 on a disabled timer with a configured
callback and stale counters succeeds and resets both counters. -/
theorem enable_capture_resets_counts_witness :
    ((1 : Nat) = 1 ∨ (1 : Nat) = 2) ∧
    (ic_stm32_enable_capture
        ⟨false, false, true, true, false, .counterSrc, 9, 0xffff, true, true,
          0, none, none⟩
        ⟨some 1, 2, 3, 4, 5, true⟩ 1).2.2.overflows = 0 ∧
    (ic_stm32_enable_capture
        ⟨false, false, true, true, false, .counterSrc, 9, 0xffff, true, true,
          0, none, none⟩
        ⟨some 1, 2, 3, 4, 5, true⟩ 1).2.2.skip_irq = SKIPPED_IC_CAPTURES :=
  ⟨Or.inl rfl,
    (enable_capture_resets_counts
      ⟨false, false, true, true, false, .counterSrc, 9, 0xffff, true, true,
        0, none, none⟩
      ⟨some 1, 2, 3, 4, 5, true⟩ 1 (Or.inl rfl) rfl (by decide)).2.1,
    (enable_capture_resets_counts
      ⟨false, false, true, true, false, .counterSrc, 9, 0xffff, true, true,
        0, none, none⟩
      ⟨some 1, 2, 3, 4, 5, true⟩ 1 (Or.inl rfl) rfl (by decide)).2.2⟩

/-- C9: `disable_capture` returns the invalid-argument error exactly when
the channel is outside {1, 2}; for channel 1 or 2 it always returns success
regardless of prior state, and calling it twice in succession produces the
same result (return code and hardware state) as calling it once. -/
theorem disable_capture_spec (hw : TimHw) (channel : Nat) :
    ((ic_stm32_disable_capture hw channel).1 = -EINVAL ↔
      channel ≠ 1 ∧ channel ≠ 2) ∧
    (channel = 1 ∨ channel = 2 →
      (ic_stm32_disable_capture hw channel).1 = 0) ∧
    ic_stm32_disable_capture (ic_stm32_disable_capture hw channel).2 channel
      = ic_stm32_disable_capture hw channel := by
  cases hw
  by_cases h1 : channel = 1
  · simp [ic_stm32_disable_capture, h1, EINVAL]
  · by_cases h2 : channel = 2
    · simp [ic_stm32_disable_capture, h1, h2, EINVAL]
    · simp [ic_stm32_disable_capture, h1, h2, EINVAL]

/-- C9 witness: disabling channel 1 on an armed timer succeeds, is not
reported as invalid, and a second call is a no-op. -/
theorem disable_capture_spec_witness :
    (ic_stm32_disable_capture
        ⟨true, true, true, true, true, .counterSrc, 7, 0xffff, true, true, 0,
          none, none⟩ 1).1 = 0 ∧
    ic_stm32_disable_capture
        (ic_stm32_disable_capture
          ⟨true, true, true, true, true, .counterSrc, 7, 0xffff, true, true,
            0, none, none⟩ 1).2 1
      = ic_stm32_disable_capture
          ⟨true, true, true, true, true, .counterSrc, 7, 0xffff, true, true,
            0, none, none⟩ 1 :=
  ⟨(disable_capture_spec
      ⟨true, true, true, true, true, .counterSrc, 7, 0xffff, true, true, 0,
        none, none⟩ 1).2.1 (Or.inl rfl),
    (disable_capture_spec
      ⟨true, true, true, true, true, .counterSrc, 7, 0xffff, true, true, 0,
        none, none⟩ 1).2.2⟩

/-- C10: for every interrupt entry where the session's callback is absent
(`None`), no callback invocation is performed on any path, while the events
are still processed: on the non-skipped path both pending flags end cleared,
a pending capture stores the raw captured value and resets the hardware
counter, and `overflow_count` is updated as usual. -/
theorem isr_null_callback_safe (hw : TimHw) (cpt : CaptureData)
    (hcb : cpt.callback = none) :
    (ic_stm32_isr hw cpt).calls = [] ∧
    (cpt.skip_irq = 0 →
      (ic_stm32_isr hw cpt).hw.update_flag = false ∧
      (ic_stm32_isr hw cpt).hw.cc1_flag = false ∧
      (hw.cc1_flag = true →
        (ic_stm32_isr hw cpt).cpt.period = hw.ccr1 ∧
        (ic_stm32_isr hw cpt).hw.counter = 0) ∧
      (ic_stm32_isr hw cpt).cpt.overflows =
        (if hw.cc1_flag = true ∧ cpt.continuous = true then 0
         else cpt.overflows + if hw.update_flag then 1 else 0)) := by
  cases hcc : hw.cc1_flag <;> cases hupd : hw.update_flag <;>
    cases hcont : cpt.continuous <;> cases hskip : cpt.skip_irq <;>
      simp [ic_stm32_isr, hcb, hcc, hupd, hcont, hskip,
        disable_capture_in_ch]

/-- C10 witness: a dual-event entry with no callback configured performs no
invocation but still stores the captured value and resets the counter. -/
theorem isr_null_callback_safe_witness :
    ((none : Option Nat) = none) ∧
    (ic_stm32_isr
        ⟨true, true, true, true, true, .regular, 5000, 0xffff, true, true,
          2000, none, none⟩
        ⟨none, 0, 0, 2, 0, true⟩).calls = [] :=
  ⟨rfl,
    (isr_null_callback_safe
      ⟨true, true, true, true, true, .regular, 5000, 0xffff, true, true,
        2000, none, none⟩
      ⟨none, 0, 0, 2, 0, true⟩ rfl).1⟩

end IcStm32
